import Mathlib

/-!
Shallow embedding of `src/etl_modernization.py` for checking the
specification of the Enterprise-Data-Warehouse-Modernization repository.

The embedded parts are the SCD Type-2 reconciler `scd2_merge` (with its
helpers `ensure_cols` and the system-column initialisation), the quality
gate `dq_checks`, and the parity validator `parity_check`.

Modelling conventions, matched against the pandas semantics the source
relies on:
* A cell is a `Val`; `Val.vnull` models a pandas missing value
  (`np.nan` / `pd.NaT`).  The Python `!=` operator on such cells returns
  `True` even for NaN vs NaN, which `pyNe` reproduces.
* A row out of `DataFrame.iterrows()` is an association list from column
  name to cell.  `Series.get(label)` on a missing label returns Python
  `None`, which we model at the `Option Val` level (`none` = label
  absent); `pyNeOpt` reproduces `!=` after two such lookups
  (`None != None` is `False` in Python).
* `DataFrame.merge(..., on=key_cols, how="outer", indicator=True,
  suffixes=("_cur", "_new"))` suffixes only the overlapping non-key
  columns; the join-key columns keep their bare names.  Cells of the
  absent side of a one-sided match are filled with NaN.  Join keys match
  by equality, with NaN matching NaN (pandas merge pairs NaN keys).
* Dates and timestamps are day numbers (`Val.vdate`); the ambient
  `pd.Timestamp.utcnow().normalize()` / `pd.Timestamp.today()` is passed
  explicitly as `now` / `today`.
* `dq_checks` and `parity_check` operate on the fact table; its relevant
  columns are a `FactRow` with `Option` for nullable cells and `ℚ` for
  the numeric amounts.  Python exceptions become `Except String` values
  carrying the `ValueError` message; the `assert` in `parity_check`
  becomes a `Bool` (`true` = assertion passes).
-/

namespace EDW

/-- A table cell.  `vnull` is a pandas missing value (`np.nan` / `pd.NaT`). -/
inductive Val where
  | vint : Int → Val
  | vstr : String → Val
  | vbool : Bool → Val
  | vdate : Int → Val
  | vnull : Val
deriving DecidableEq

/-- Python `!=` on two cells: any comparison involving a missing value is
`True` (NaN is not equal to anything, itself included); otherwise plain
disequality.  It is total: a type mismatch yields `true`, never an error. -/
def pyNe (a b : Val) : Bool :=
  if a = Val.vnull ∨ b = Val.vnull then true else decide (a ≠ b)

/-- Python `!=` applied to the results of two `Series.get` lookups:
`none` models a lookup that missed (Python `None`), and `None != None`
is `False` in Python while any one-sided `None` compares unequal. -/
def pyNeOpt : Option Val → Option Val → Bool
  | none, none => false
  | none, some _ => true
  | some _, none => true
  | some a, some b => pyNe a b

/-- A row: association list from column name to cell, in column order. -/
abbrev Row := List (String × Val)

/-- `Series.get(c)` without default: `some` cell if the label exists. -/
def rget (r : Row) (c : String) : Option Val :=
  (r.find? (fun p => decide (p.1 = c))).map Prod.snd

/-- `row.get(c)` / `row.get(c, None)` landed in an output cell: a missing
label yields Python `None`, which the output table stores as a null. -/
def pyGet (r : Row) (c : String) : Val := (rget r c).getD Val.vnull

/-- Column assignment on one row: replace the cell in place if the column
exists, otherwise append the new column at the end. -/
def rset (r : Row) (c : String) (v : Val) : Row :=
  if r.any (fun p => decide (p.1 = c)) then
    r.map (fun p => if p.1 = c then (c, v) else p)
  else r ++ [(c, v)]

/-- A DataFrame: a column list and rows keyed by those columns. -/
structure Frame where
  cols : List String
  rows : List Row
deriving DecidableEq

/-- `df[c] = v`: set a whole column to one scalar value. -/
def setCol (f : Frame) (c : String) (v : Val) : Frame :=
  { cols := if decide (c ∈ f.cols) then f.cols else f.cols ++ [c],
    rows := f.rows.map (fun r => rset r c v) }

/-- `ensure_cols` (source lines 66-72): add each listed column that the
frame lacks, filled with `np.nan`. -/
def ensure_cols (df : Frame) (cs : List String) : Frame :=
  cs.foldl (fun acc c => if decide (c ∈ acc.cols) then acc else setCol acc c Val.vnull) df

/-- The three SCD system columns added by `scd2_merge`. -/
def sysCols : List String := ["is_current", "effective_date", "end_date"]

/-- Source lines 111-116: if the three system columns are not all present
on `current`, assign all three — every row becomes current as of `now`
with an open `end_date`. -/
def prep_current (current : Frame) (now : Val) : Frame :=
  if sysCols.all (fun c => decide (c ∈ current.cols)) then current
  else
    setCol (setCol (setCol current "is_current" (Val.vbool true)) "effective_date" now)
      "end_date" Val.vnull

/-- The `_merge` indicator column of `merge(..., indicator=True)`. -/
inductive MergeTag where
  | both | left_only | right_only
deriving DecidableEq

/-- One row of the merged frame together with its `_merge` indicator. -/
structure MRow where
  row : Row
  tag : MergeTag
deriving DecidableEq

/-- The tuple of join-key cells of a row. -/
def keyTuple (keys : List String) (r : Row) : List Val :=
  keys.map (fun k => pyGet r k)

/-- `left.merge(right, on=keys, how="outer", indicator=True,
suffixes=("_cur", "_new"))`: overlapping non-key columns are suffixed,
join keys keep their bare names, and a one-sided match fills the other
side's cells with NaN.  NaN join keys pair with NaN, as pandas does. -/
def outerMerge (left right : Frame) (keys : List String) : List MRow :=
  let overlap := left.cols.filter (fun c => decide (c ∈ right.cols) && !decide (c ∈ keys))
  let lname := fun (c : String) => if decide (c ∈ overlap) then c ++ "_cur" else c
  let rname := fun (c : String) => if decide (c ∈ overlap) then c ++ "_new" else c
  let lcols := left.cols.filter (fun c => !decide (c ∈ keys))
  let rcols := right.cols.filter (fun c => !decide (c ∈ keys))
  let keyPart := fun (r : Row) => keys.map (fun k => (k, pyGet r k))
  let lpart := fun (l : Row) => lcols.map (fun c => (lname c, pyGet l c))
  let rpart := fun (r : Row) => rcols.map (fun c => (rname c, pyGet r c))
  let lnulls := lcols.map (fun c => (lname c, Val.vnull))
  let rnulls := rcols.map (fun c => (rname c, Val.vnull))
  (left.rows.map (fun l =>
      let ms := right.rows.filter (fun r => decide (keyTuple keys l = keyTuple keys r))
      if ms.isEmpty then [⟨keyPart l ++ lpart l ++ rnulls, MergeTag.left_only⟩]
      else ms.map (fun r => ⟨keyPart l ++ lpart l ++ rpart r, MergeTag.both⟩))).flatten
  ++ (right.rows.filter (fun r =>
        left.rows.all (fun l => !decide (keyTuple keys l = keyTuple keys r)))).map
      (fun r => ⟨keyPart r ++ lnulls ++ rpart r, MergeTag.right_only⟩)

/-- Source line 128: `changed = any(row.get(f"{c}_cur") != row.get(f"{c}_new")
for c in attrib_cols)`. -/
def rowChanged (attrib_cols : List String) (m : Row) : Bool :=
  attrib_cols.any (fun c => pyNeOpt (rget m (c ++ "_cur")) (rget m (c ++ "_new")))

/-- Source lines 131-134 and 153-156: the expiry record.  The dict is
built from `row.get(f"{c}_cur", None)` over the current columns and then
overwritten at `is_current` / `end_date`; `cols` always contains both
(guaranteed by `prep_current`), so the overwrite is an in-place update. -/
def expireRow (cols : List String) (now : Val) (m : Row) : Row :=
  cols.map (fun c =>
    (c, if c = "is_current" then Val.vbool false
        else if c = "end_date" then now
        else pyGet m (c ++ "_cur")))

/-- Source lines 136-139: the new-version record of a changed key —
`row.get(f"{c}_new", row.get(f"{c}_cur", None))` with the three system
cells overwritten. -/
def newVersionBoth (cols : List String) (now : Val) (m : Row) : Row :=
  cols.map (fun c =>
    (c, if c = "is_current" then Val.vbool true
        else if c = "effective_date" then now
        else if c = "end_date" then Val.vnull
        else (rget m (c ++ "_new")).getD (pyGet m (c ++ "_cur"))))

/-- Source lines 146-149: the record for a brand-new key —
`row.get(f"{c}_new", None)` with the three system cells overwritten. -/
def newVersionRight (cols : List String) (now : Val) (m : Row) : Row :=
  cols.map (fun c =>
    (c, if c = "is_current" then Val.vbool true
        else if c = "effective_date" then now
        else if c = "end_date" then Val.vnull
        else pyGet m (c ++ "_new")))

/-- Source line 143: the verbatim copy of an unchanged key —
`{c: row.get(f"{c}_cur") for c in current.columns}`, no overwrites. -/
def copyCurrent (cols : List String) (m : Row) : Row :=
  cols.map (fun c => (c, pyGet m (c ++ "_cur")))

/-- Source lines 107-159, the SCD Type-2 reconciler: initialise the
system columns if absent, align the incoming columns, outer-merge on the
business keys, classify each merged row by its `_merge` indicator, and
return `keep + updates` under the current columns. -/
def scd2_merge (current incoming : Frame) (key_cols attrib_cols : List String)
    (now : Val) : Frame :=
  let cur := prep_current current now
  let inc := ensure_cols incoming (cur.cols.filter (fun c => !decide (c ∈ incoming.cols)))
  let merged := outerMerge cur inc key_cols
  let acc := merged.foldl (fun (acc : List Row × List Row) m =>
    match m.tag with
    | MergeTag.both =>
        if rowChanged attrib_cols m.row then
          (acc.1 ++ [newVersionBoth cur.cols now m.row],
           acc.2 ++ [expireRow cur.cols now m.row])
        else
          (acc.1 ++ [copyCurrent cur.cols m.row], acc.2)
    | MergeTag.right_only => (acc.1 ++ [newVersionRight cur.cols now m.row], acc.2)
    | MergeTag.left_only => (acc.1, acc.2 ++ [expireRow cur.cols now m.row]))
    ([], [])
  { cols := cur.cols, rows := acc.1 ++ acc.2 }

/-- The post-reconciliation current view: the rows with `is_current = true`. -/
def currentView (f : Frame) : Frame :=
  { cols := f.cols,
    rows := f.rows.filter (fun r => decide (pyGet r "is_current" = Val.vbool true)) }

/-- The fact-table columns consulted by `dq_checks` and `parity_check`.
`none` models a null cell; amounts are exact rationals. -/
structure FactRow where
  order_date : Int
  customer_id : Option Int
  product_id : Option Int
  quantity : Option ℚ
  sales_amount : Option ℚ
  gross_margin : ℚ
deriving DecidableEq

/-- `cell < 0` on a nullable numeric cell: NaN compares `False`. -/
def negCell : Option ℚ → Bool
  | none => false
  | some q => decide (q < 0)

/-- Source lines 208-229, the quality gate: one combined negatives check
(quantity or amount), then the two null-foreign-key checks; the first
failing check raises its `ValueError` message.  The aggregate and VIP
steps only log and are pure no-ops here. -/
def dq_checks (fact : List FactRow) : Except String Unit :=
  if fact.any (fun r => negCell r.quantity) || fact.any (fun r => negCell r.sales_amount) then
    Except.error "DQ FAIL: negative values found in facts"
  else if fact.any (fun r => r.customer_id.isNone) then
    Except.error "DQ FAIL: orphaned customer_id"
  else if fact.any (fun r => r.product_id.isNone) then
    Except.error "DQ FAIL: orphaned product_id"
  else Except.ok ()

/-- Source lines 253-254: the KPI — the sum of `gross_margin` over the
rows whose `order_date` lies in the trailing 365-day window. -/
def kpiMargin (fact : List FactRow) (today : Int) : ℚ :=
  ((fact.filter (fun r => decide (today - 365 ≤ r.order_date))).map FactRow.gross_margin).sum

/-- Source lines 249-259, the parity validator: the reference is derived
internally as `kpi * 0.999` ("Pretend MDX returned very similar number")
and the assertion is `abs(kpi - mdx) / max(kpi, 1.0) < 0.01`; `true`
means the assert passes. -/
def parity_check (fact : List FactRow) (today : Int) : Bool :=
  let kpi := kpiMargin fact today
  let mdx := kpi * (999 / 1000 : ℚ)
  let diff := |kpi - mdx|
  decide (diff / max kpi 1 < (1 / 100 : ℚ))

/-! ### Concrete tables used to settle the claims -/

/-- Column list of the product dimension rows used in the examples. -/
def prodCols : List String := ["product_id", "unit_cost", "is_current", "effective_date", "end_date"]

/-- A current table with one current row: key 1, cost 10, current since day 0. -/
def curOne : Frame :=
  { cols := prodCols,
    rows := [[("product_id", Val.vint 1), ("unit_cost", Val.vint 10),
              ("is_current", Val.vbool true), ("effective_date", Val.vdate 0),
              ("end_date", Val.vnull)]] }

/-- An incoming snapshot identical in attributes to `curOne`: key 1, cost 10. -/
def incSame : Frame :=
  { cols := ["product_id", "unit_cost"],
    rows := [[("product_id", Val.vint 1), ("unit_cost", Val.vint 10)]] }

/-- An incoming snapshot changing the attribute: key 1, cost 12. -/
def incChanged : Frame :=
  { cols := ["product_id", "unit_cost"],
    rows := [[("product_id", Val.vint 1), ("unit_cost", Val.vint 12)]] }

/-- An empty incoming snapshot (implicit delete of key 1). -/
def incEmpty : Frame := { cols := ["product_id", "unit_cost"], rows := [] }

/-- An incoming snapshot with two rows for the same business key 1. -/
def incDup : Frame :=
  { cols := ["product_id", "unit_cost"],
    rows := [[("product_id", Val.vint 1), ("unit_cost", Val.vint 10)],
             [("product_id", Val.vint 1), ("unit_cost", Val.vint 12)]] }

/-- A current table whose only attribute cell is null (key 1, cost NaN). -/
def curNullCost : Frame :=
  { cols := prodCols,
    rows := [[("product_id", Val.vint 1), ("unit_cost", Val.vnull),
              ("is_current", Val.vbool true), ("effective_date", Val.vdate 0),
              ("end_date", Val.vnull)]] }

/-- An incoming snapshot carrying only the key, so that `ensure_cols`
fills `unit_cost` with NaN: null on both sides of the comparison. -/
def incKeyOnly : Frame :=
  { cols := ["product_id"], rows := [[("product_id", Val.vint 1)]] }

/-- An unversioned current table: no system columns at all. -/
def curNoSys : Frame :=
  { cols := ["product_id", "unit_cost"],
    rows := [[("product_id", Val.vint 1), ("unit_cost", Val.vint 10)]] }

/-- The output of the first reconciliation run of the idempotence example:
`curOne` against `incChanged` at day 5. -/
def run1 : Frame := scd2_merge curOne incChanged ["product_id"] ["unit_cost"] (Val.vdate 5)

/-- A fact row with a negative `sales_amount` and everything else clean. -/
def negAmtRow : FactRow :=
  { order_date := 0, customer_id := some 1, product_id := some 1,
    quantity := some 1, sales_amount := some (-5), gross_margin := 0 }

/-- A fact row with a negative `quantity` and everything else clean. -/
def negQtyRow : FactRow :=
  { order_date := 0, customer_id := some 1, product_id := some 1,
    quantity := some (-1), sales_amount := some 5, gross_margin := 0 }

/-- A recent fact row whose margin makes the window KPI -100000. -/
def bigLossRow : FactRow :=
  { order_date := 0, customer_id := some 1, product_id := some 1,
    quantity := some 1, sales_amount := some 1, gross_margin := -100000 }

/-! ### Claim theorems -/

/-- C1: Key coverage fails on the code.  For Current = {key 1, cost 10,
current} and Incoming = {key 1, cost 10}, the claim requires exactly one
output row with `is_current = true` whose key column holds the value 1.
The code does emit exactly one current row, but its `product_id` cell is
null: every output builder reads `row.get("product_id_cur")`, and the
outer merge never creates suffixed copies of the join-key columns, so no
output row carries the key's value. -/
theorem scd2_key_coverage_bug :
    (scd2_merge curOne incSame ["product_id"] ["unit_cost"] (Val.vdate 5)).rows.length = 1 ∧
    (∀ r ∈ (scd2_merge curOne incSame ["product_id"] ["unit_cost"] (Val.vdate 5)).rows,
      pyGet r "is_current" = Val.vbool true ∧ pyGet r "product_id" = Val.vnull) ∧
    ¬ ∃ r ∈ (scd2_merge curOne incSame ["product_id"] ["unit_cost"] (Val.vdate 5)).rows,
        pyGet r "product_id" = Val.vint 1 := by decide

/-- C2 (counterexample): the "changed" comparison is not null-safe.
Current has key 1 with a null `unit_cost`; the incoming snapshot carries
only the key, so `ensure_cols` fills its `unit_cost` with NaN — null on
both sides.  The claim says null vs null counts as unchanged (one
verbatim row); the code compares with `!=`, for which NaN differs from
NaN, so the key is classified as changed and two rows are emitted, one
of them an expiry. -/
theorem scd2_null_vs_null_counts_changed :
    (scd2_merge curNullCost incKeyOnly ["product_id"] ["unit_cost"] (Val.vdate 5)).rows.length = 2 ∧
    ∃ r ∈ (scd2_merge curNullCost incKeyOnly ["product_id"] ["unit_cost"] (Val.vdate 5)).rows,
      pyGet r "is_current" = Val.vbool false := by decide

/-- C3: the changed-key pair is emitted, but not as the claim states.
For Current = {key 1, cost 10, current since day 0} and Incoming =
{key 1, cost 12} at day 5, the code emits exactly the two rows below:
the new version and the expiry both have a null `product_id` (the claim
requires the expiry to be a copy of the current row with only
`is_current` and `end_date` changed, and the new version to carry the
incoming key). -/
theorem scd2_changed_emits_null_keys :
    (scd2_merge curOne incChanged ["product_id"] ["unit_cost"] (Val.vdate 5)).rows =
      [[("product_id", Val.vnull), ("unit_cost", Val.vint 12), ("is_current", Val.vbool true),
        ("effective_date", Val.vdate 5), ("end_date", Val.vnull)],
       [("product_id", Val.vnull), ("unit_cost", Val.vint 10), ("is_current", Val.vbool false),
        ("effective_date", Val.vdate 0), ("end_date", Val.vdate 5)]] := by decide

/-- C4: no-op is not verbatim.  For Current = {key 1, cost 10} and an
attribute-identical Incoming, the code emits a single row, but that row
is not the current row: its `product_id` has been nulled by the
suffixed-name lookup, so the emitted row differs from every row of
Current. -/
theorem scd2_noop_not_verbatim :
    (scd2_merge curOne incSame ["product_id"] ["unit_cost"] (Val.vdate 5)).rows.length = 1 ∧
    ∀ r ∈ (scd2_merge curOne incSame ["product_id"] ["unit_cost"] (Val.vdate 5)).rows,
      r ∉ curOne.rows := by decide

/-- C5: implicit delete emits one expiry, but with the business key
nulled.  For Current = {key 1, cost 10, current since day 0} and an
empty Incoming at day 5, the full output is the single row below:
`is_current = false` and `end_date = day 5` as the claim states, but
`product_id` is null instead of 1, so the other fields are not "all
unchanged" (the spec's own example expects `(id=1, cost=10,
current=false, end=asOf)`). -/
theorem scd2_delete_expiry_null_key :
    (scd2_merge curOne incEmpty ["product_id"] ["unit_cost"] (Val.vdate 5)).rows =
      [[("product_id", Val.vnull), ("unit_cost", Val.vint 10), ("is_current", Val.vbool false),
        ("effective_date", Val.vdate 0), ("end_date", Val.vdate 5)]] := by decide

/-- C6 (counterexample): no fail-fast on duplicate incoming keys.  With
Current = {key 1, cost 10} and an Incoming containing two rows for key 1
(costs 10 and 12), the reconciler raises nothing: it returns normally
with the three rows below, each duplicate classified independently
against the current row (there is no `DuplicateKeyError` anywhere in the
code). -/
theorem scd2_duplicate_keys_no_error :
    (scd2_merge curOne incDup ["product_id"] ["unit_cost"] (Val.vdate 5)).rows =
      [[("product_id", Val.vnull), ("unit_cost", Val.vint 10), ("is_current", Val.vbool true),
        ("effective_date", Val.vdate 0), ("end_date", Val.vnull)],
       [("product_id", Val.vnull), ("unit_cost", Val.vint 12), ("is_current", Val.vbool true),
        ("effective_date", Val.vdate 5), ("end_date", Val.vnull)],
       [("product_id", Val.vnull), ("unit_cost", Val.vint 10), ("is_current", Val.vbool false),
        ("effective_date", Val.vdate 0), ("end_date", Val.vdate 5)]] := by decide

/-- C6 (amended): instead of failing fast, the reconciler silently
processes each duplicate: the same duplicate-key input yields two rows
marked `is_current = true` for the single business key. -/
theorem scd2_duplicate_keys_two_current :
    (currentView (scd2_merge curOne incDup ["product_id"] ["unit_cost"] (Val.vdate 5))).rows.length = 2 := by
  decide

/-- C7: the transformation does not reach a fixed point.  First run:
Current = {key 1, cost 10} against Incoming = {key 1, cost 12} at day 5
(`run1`); its post-reconciliation current view is a single row.  Running
the reconciler again with that view as Current and the same Incoming
emits two more rows — an expiry of the stored row and a fresh version —
because the stored row's `product_id` is null and no longer joins with
the incoming key.  The second run's output is not its current input, and
additional versions are emitted. -/
theorem scd2_second_run_not_fixed_point :
    (currentView run1).rows.length = 1 ∧
    (scd2_merge (currentView run1) incChanged ["product_id"] ["unit_cost"] (Val.vdate 5)).rows.length = 2 ∧
    (scd2_merge (currentView run1) incChanged ["product_id"] ["unit_cost"] (Val.vdate 5)).rows ≠
      (currentView run1).rows ∧
    ∃ r ∈ (scd2_merge (currentView run1) incChanged ["product_id"] ["unit_cost"] (Val.vdate 5)).rows,
      pyGet r "is_current" = Val.vbool false := by decide

/-- C8 (counterexample): the quality gate does not name the specific
failing rule for a negative amount.  A fact table whose only violation
is `sales_amount = -5` raises the combined message "DQ FAIL: negative
values found in facts" — the very same error a negative-quantity-only
table raises — so the error does not identify the negative-amount rule. -/
theorem dq_negative_rules_share_message :
    dq_checks [negAmtRow] = Except.error "DQ FAIL: negative values found in facts" ∧
    dq_checks [negQtyRow] = dq_checks [negAmtRow] := by
  exact ⟨rfl, rfl⟩

/-- C9 (counterexample): the parity check can fail although the relative
difference is far below the 1% tolerance.  With one recent fact row of
`gross_margin = -100000`, the KPI is -100000 and the internally derived
reference is -99900; their relative difference is 1/999 (≈ 0.1%), yet
the assertion `abs(kpi - mdx) / max(kpi, 1.0) < 0.01` fails because the
denominator is `max(kpi, 1.0) = 1`, not a magnitude. -/
theorem parity_check_fails_inside_tolerance :
    parity_check [bigLossRow] 0 = false ∧
    |kpiMargin [bigLossRow] 0 - kpiMargin [bigLossRow] 0 * (999 / 1000 : ℚ)| /
        |kpiMargin [bigLossRow] 0 * (999 / 1000 : ℚ)| < (1 / 100 : ℚ) := by
  have hk : kpiMargin [bigLossRow] 0 = -100000 := by
    norm_num [kpiMargin, bigLossRow]
  have habs1 : |(-100000 : ℚ) - (-100000 : ℚ) * (999 / 1000)| = 100 := by
    rw [abs_of_nonpos (by norm_num)]
    norm_num
  have habs2 : |(-100000 : ℚ) * (999 / 1000)| = 99900 := by
    rw [abs_of_nonpos (by norm_num)]
    norm_num
  constructor
  · simp only [parity_check, hk]
    rw [habs1, max_eq_right (by norm_num : (-100000 : ℚ) ≤ 1), decide_eq_false_iff_not]
    norm_num
  · rw [hk, habs1, habs2]
    norm_num

/-! ### Supporting lemmas -/

theorem pyNe_eq_false_iff (a b : Val) : pyNe a b = false ↔ a = b ∧ a ≠ Val.vnull := by
  constructor
  · intro hf
    by_cases h : a = Val.vnull ∨ b = Val.vnull
    · simp [pyNe, h] at hf
    · push_neg at h
      have hd : decide (a ≠ b) = false := by
        simpa [pyNe, h.1, h.2] using hf
      exact ⟨by simpa using hd, h.1⟩
  · rintro ⟨rfl, hn⟩
    simp [pyNe, hn]

theorem pyNeOpt_eq_false_iff (x y : Option Val) :
    pyNeOpt x y = false ↔ x = y ∧ x ≠ some Val.vnull := by
  cases x <;> cases y <;> simp [pyNeOpt, pyNe_eq_false_iff]

theorem rget_nil (d : String) : rget [] d = none := rfl

theorem rget_cons (p : String × Val) (t : Row) (d : String) :
    rget (p :: t) d = if p.1 = d then some p.2 else rget t d := by
  by_cases h : p.1 = d <;> simp [rget, List.find?, h]

theorem any_key_eq_isSome (r : Row) (c : String) :
    r.any (fun p => decide (p.1 = c)) = (rget r c).isSome := by
  induction r with
  | nil => rfl
  | cons p t ih => by_cases hp : p.1 = c <;> simp [rget_cons, hp, ih]

theorem rget_map_update (r : Row) (c d : String) (v : Val) :
    rget (r.map (fun p => if p.1 = c then (c, v) else p)) d =
      if c = d then (rget r c).map (fun _ => v) else rget r d := by
  induction r with
  | nil => by_cases h : c = d <;> simp [rget_nil, h]
  | cons p t ih =>
    by_cases hp : p.1 = c
    · by_cases hcd : c = d
      · subst hcd
        simp [rget_cons, hp, ih]
      · simp [rget_cons, hp, hcd, ih]
    · by_cases hcd : c = d
      · subst hcd
        have hpd : p.1 ≠ c := hp
        simp [rget_cons, hp, hpd, ih]
      · by_cases hpd : p.1 = d <;> simp [rget_cons, hp, hpd, hcd, Ne.symm hcd, ih]

theorem rget_append_single (r : Row) (c d : String) (v : Val) :
    rget (r ++ [(c, v)]) d =
      match rget r d with
      | some w => some w
      | none => if c = d then some v else none := by
  induction r with
  | nil => by_cases h : c = d <;> simp [rget_nil, rget_cons, h]
  | cons p t ih => by_cases hp : p.1 = d <;> simp [rget_cons, hp, ih]

/-- The effect of a column assignment on one row: the assigned column
reads back the new value, every other column is untouched. -/
theorem rget_rset (r : Row) (c d : String) (v : Val) :
    rget (rset r c v) d = if c = d then some v else rget r d := by
  unfold rset
  by_cases h : r.any (fun p => decide (p.1 = c)) = true
  · rw [if_pos h, rget_map_update]
    rw [any_key_eq_isSome] at h
    by_cases hcd : c = d
    · subst hcd
      cases hrc : rget r c with
      | none => rw [hrc] at h; simp at h
      | some w => simp [hrc]
    · simp [hcd]
  · rw [if_neg h, rget_append_single]
    rw [any_key_eq_isSome] at h
    have hn : rget r c = none := by
      cases hrc : rget r c with
      | none => rfl
      | some w => rw [hrc] at h; simp at h
    by_cases hcd : c = d
    · subst hcd
      rw [hn]
    · simp only [if_neg hcd]
      cases hrd : rget r d <;> rfl

theorem setCol_cols_mem (f : Frame) (c d : String) (v : Val) (h : d ∈ f.cols ∨ d = c) :
    d ∈ (setCol f c v).cols := by
  rcases h with h | rfl
  · by_cases hc : c ∈ f.cols <;> simp [setCol, hc, h]
  · by_cases hc : d ∈ f.cols <;> simp [setCol, hc]

theorem setCol_rows (f : Frame) (c : String) (v : Val) :
    (setCol f c v).rows = f.rows.map (fun r => rset r c v) := rfl

/-! ### Remaining claim theorems -/

/-- C2 (amended): the "changed" classification used by `scd2_merge` is
the plain Python `!=` over the two `Series.get` lookups.  It is total —
every pair of cells, of any types, yields a verdict without raising —
but it is not null-safe in the claimed direction: a key is classified as
unchanged precisely when every attribute column has the two lookups
equal and non-null.  In particular null vs null counts as changed
(NaN differs from NaN under `!=`), and null vs value counts as changed. -/
theorem rowChanged_eq_false_iff (attrib_cols : List String) (m : Row) :
    rowChanged attrib_cols m = false ↔
      ∀ c ∈ attrib_cols,
        rget m (c ++ "_cur") = rget m (c ++ "_new") ∧
        rget m (c ++ "_cur") ≠ some Val.vnull := by
  rw [rowChanged, List.any_eq_false]
  constructor
  · intro h c hc
    exact (pyNeOpt_eq_false_iff _ _).mp (by simpa using h c hc)
  · intro h c hc
    simp [(pyNeOpt_eq_false_iff _ _).mpr (h c hc)]

/-- C8 (amended): the quality gate passes exactly when the fact table
has no negative quantity, no negative amount, no null `customer_id` and
no null `product_id`; any single violation makes it return an error (the
first applicable message) instead of `ok`, with no partial-success mode.
The two negative checks share one combined message and the errors are
`ValueError`s, not a dedicated `DataQualityViolation` type. -/
theorem dq_checks_ok_iff (fact : List FactRow) :
    dq_checks fact = Except.ok () ↔
      ∀ r ∈ fact,
        negCell r.quantity = false ∧ negCell r.sales_amount = false ∧
        r.customer_id ≠ none ∧ r.product_id ≠ none := by
  constructor
  · intro h r hr
    by_cases h1 : fact.any (fun x => negCell x.quantity) = true
    · simp [dq_checks, h1] at h
    by_cases h2 : fact.any (fun x => negCell x.sales_amount) = true
    · simp [dq_checks, h2] at h
    by_cases h3 : fact.any (fun x => x.customer_id.isNone) = true
    · simp [dq_checks, h1, h2, h3] at h
    by_cases h4 : fact.any (fun x => x.product_id.isNone) = true
    · simp [dq_checks, h1, h2, h3, h4] at h
    rw [Bool.not_eq_true, List.any_eq_false] at h1 h2 h3 h4
    exact ⟨by simpa using h1 r hr, by simpa using h2 r hr,
           by simpa using h3 r hr, by simpa using h4 r hr⟩
  · intro h
    have h1 : fact.any (fun x => negCell x.quantity) = false :=
      List.any_eq_false.mpr (fun r hr => by simp [(h r hr).1])
    have h2 : fact.any (fun x => negCell x.sales_amount) = false :=
      List.any_eq_false.mpr (fun r hr => by simp [(h r hr).2.1])
    have h3 : fact.any (fun x => x.customer_id.isNone) = false :=
      List.any_eq_false.mpr (fun r hr => by
        simpa [Option.isNone_iff_eq_none] using (h r hr).2.2.1)
    have h4 : fact.any (fun x => x.product_id.isNone) = false :=
      List.any_eq_false.mpr (fun r hr => by
        simpa [Option.isNone_iff_eq_none] using (h r hr).2.2.2)
    simp [dq_checks, h1, h2, h3, h4]

/-- C9 (amended): the parity validator computes the KPI over the
trailing 365-day window, but the reference is not externally supplied —
it is derived internally as `kpi * 0.999` — and the asserted quantity
divides by `max(kpi, 1.0)` rather than by a magnitude.  Consequently the
assertion passes exactly when the KPI exceeds -10: it always passes for
nonnegative KPIs and fails for every KPI at or below -10, even though
the relative difference from the derived reference is always 0.1%. -/
theorem parity_check_passes_iff (fact : List FactRow) (today : Int) :
    parity_check fact today = true ↔ -10 < kpiMargin fact today := by
  have hpc : parity_check fact today =
      decide (|kpiMargin fact today - kpiMargin fact today * (999 / 1000 : ℚ)| /
        max (kpiMargin fact today) 1 < (1 / 100 : ℚ)) := rfl
  rw [hpc, decide_eq_true_eq]
  set k := kpiMargin fact today with hk
  have hdiff : |k - k * (999 / 1000 : ℚ)| = |k| / 1000 := by
    have hsub : k - k * (999 / 1000 : ℚ) = k / 1000 := by ring
    rw [hsub, abs_div]
    norm_num
  rw [hdiff]
  rcases le_or_lt 1 k with h | h
  · have hk0 : (0 : ℚ) < k := lt_of_lt_of_le one_pos h
    rw [max_eq_left h, abs_of_pos hk0]
    constructor
    · intro _
      linarith
    · intro _
      rw [div_div, div_lt_iff₀ (by positivity)]
      linarith
  · rw [max_eq_right h.le, div_one]
    constructor
    · intro hlt
      have h10 : |k| < 10 := by linarith
      linarith [(abs_lt.mp h10).1]
    · intro hk10
      have h10 : |k| < 10 := abs_lt.mpr ⟨by linarith, by linarith⟩
      linarith

/-- C10: `scd2_merge` accepts an unversioned current table.  Its first
step, `prep_current`, checks whether the three system columns are all
present; when at least one is missing it assigns all three, so every
existing row of the preprocessed current table reads back
`is_current = true`, `effective_date = now` and `end_date` open (null),
and the three columns exist afterwards — the table is treated as
entirely current rather than rejected. -/
theorem scd2_accepts_unversioned_current (current : Frame) (now : Val)
    (h : ¬ ("is_current" ∈ current.cols ∧ "effective_date" ∈ current.cols ∧
            "end_date" ∈ current.cols)) :
    ("is_current" ∈ (prep_current current now).cols ∧
     "effective_date" ∈ (prep_current current now).cols ∧
     "end_date" ∈ (prep_current current now).cols) ∧
    ∀ r ∈ (prep_current current now).rows,
      rget r "is_current" = some (Val.vbool true) ∧
      rget r "effective_date" = some now ∧
      rget r "end_date" = some Val.vnull := by
  have hcond : ¬ (sysCols.all (fun c => decide (c ∈ current.cols)) = true) := by
    simpa [sysCols] using h
  rw [prep_current, if_neg hcond]
  refine ⟨⟨?_, ?_, ?_⟩, ?_⟩
  · exact setCol_cols_mem _ _ _ _ (Or.inl (setCol_cols_mem _ _ _ _
      (Or.inl (setCol_cols_mem _ _ _ _ (Or.inr rfl)))))
  · exact setCol_cols_mem _ _ _ _ (Or.inl (setCol_cols_mem _ _ _ _ (Or.inr rfl)))
  · exact setCol_cols_mem _ _ _ _ (Or.inr rfl)
  · intro r hr
    rw [setCol_rows] at hr
    rcases List.mem_map.mp hr with ⟨r1, hr1, rfl⟩
    rw [setCol_rows] at hr1
    rcases List.mem_map.mp hr1 with ⟨r0, hr0, rfl⟩
    rw [setCol_rows] at hr0
    rcases List.mem_map.mp hr0 with ⟨rb, hrb, rfl⟩
    refine ⟨?_, ?_, ?_⟩
    · rw [rget_rset, if_neg (by decide), rget_rset, if_neg (by decide),
        rget_rset, if_pos rfl]
    · rw [rget_rset, if_neg (by decide), rget_rset, if_pos rfl]
    · rw [rget_rset, if_pos rfl]

/-- Witness for C10 at a concrete unversioned current table. -/
theorem scd2_accepts_unversioned_current_witness :
    ("is_current" ∈ (prep_current curNoSys (Val.vdate 5)).cols ∧
     "effective_date" ∈ (prep_current curNoSys (Val.vdate 5)).cols ∧
     "end_date" ∈ (prep_current curNoSys (Val.vdate 5)).cols) ∧
    ∀ r ∈ (prep_current curNoSys (Val.vdate 5)).rows,
      rget r "is_current" = some (Val.vbool true) ∧
      rget r "effective_date" = some (Val.vdate 5) ∧
      rget r "end_date" = some Val.vnull :=
  scd2_accepts_unversioned_current curNoSys (Val.vdate 5) (by decide)

end EDW
